import Mathlib

/-
Verification development for the TrickHLA / SpaceFOM core: the reference-frame
lag-compensation integrator flows, the physical-entity integrator setters, the
Trick-thread coordinator association and cycle-boundary operations, and the
sine-model ownership handler schedule.  Doubles are modelled as rationals;
fallible operations return Option.
-/

namespace SpaceFOM

/-- Modelled from the spec: a three-component double vector, as used throughout
the SpaceFOM state records (position, velocity, angular velocity). -/
structure Vec3 where
  x : ℚ
  y : ℚ
  z : ℚ
deriving DecidableEq, Repr

/-- Modelled from the spec: QuaternionData.hh is not in the sources; a
quaternion is a scalar part plus a three-vector part. -/
structure QuaternionData where
  scalar : ℚ
  vector : Vec3
deriving DecidableEq, Repr

/-- Modelled from the spec: QuaternionData.c is not in the sources; the
derivative operator computes the first time derivative of the attitude
quaternion from the angular velocity, q-dot = (1/2) q x omega, with omega
treated as a pure quaternion. -/
def QuaternionData.derivative_first (q : QuaternionData) (w : Vec3) : QuaternionData :=
  { scalar := -(q.vector.x * w.x + q.vector.y * w.y + q.vector.z * w.z) / 2,
    vector :=
      { x := (q.scalar * w.x + (q.vector.y * w.z - q.vector.z * w.y)) / 2,
        y := (q.scalar * w.y + (q.vector.z * w.x - q.vector.x * w.z)) / 2,
        z := (q.scalar * w.z + (q.vector.x * w.y - q.vector.y * w.x)) / 2 } }

/-- Modelled from the spec: SpaceTimeCoordinateData.hh is not in the sources;
the record holds position, velocity, attitude quaternion, angular velocity and
the time stamp of the state. -/
structure SpaceTimeCoordinateData where
  pos : Vec3
  vel : Vec3
  att : QuaternionData
  ang_vel : Vec3
  time : ℚ
deriving DecidableEq, Repr

/-- Modelled from the spec: RefFrameBase.hh only declares the frame; the frame
carries a packing buffer (the buffer the HLA object packs into and unpacks
from) and the working simulation state. -/
structure RefFrameBase where
  packing_data : SpaceTimeCoordinateData
  working_data : SpaceTimeCoordinateData
deriving DecidableEq, Repr

/-- Modelled from the spec: the data time on the received record, read off the
packing buffer of the frame. -/
def RefFrameBase.get_time (f : RefFrameBase) : ℚ :=
  f.packing_data.time

/-- Mutable state of a RefFrameLagCompBase compensator together with the frame
it compensates: the stored compensation step, the private lag-compensation
snapshot and the computed attitude rate. -/
structure RefFrameLagCompState where
  ref_frame : RefFrameBase
  compensate_dt : ℚ
  lag_comp_data : SpaceTimeCoordinateData
  Q_dot : QuaternionData
deriving DecidableEq, Repr

/-- Events recorded by the send and receive flows, in the order the source
performs them. -/
inductive LagCompEvent where
  | pack_from_working_data
  | load_lag_comp_data
  | compute_Q_dot
  | compensate (t_begin : ℚ) (t_end : ℚ)
  | unload_lag_comp_data
  | unpack_into_working_data
deriving DecidableEq, Repr

/-- True exactly on a compensate event. -/
def LagCompEvent.is_compensate : LagCompEvent → Bool
  | .compensate _ _ => true
  | _ => false

/-- A subclass-supplied compensate strategy: given t_begin, t_end and the
current lag-compensation data and attitude rate, produce the compensated
data and rate. -/
abbrev CompensateFn :=
  ℚ → ℚ → SpaceTimeCoordinateData → QuaternionData → SpaceTimeCoordinateData × QuaternionData

/-- RefFrameLagCompInteg::initialize terminates the process exactly when this
predicate holds: the source compares integ_dt < integ_tol and calls
DebugHandler::terminate_with_message when the comparison is true. -/
def RefFrameLagCompInteg.initialize_is_fatal (integ_dt integ_tol : ℚ) : Bool :=
  integ_dt < integ_tol

/-- RefFrameLagCompInteg::send_lag_compensation: t_begin is the scenario time,
compensate_dt is set to the lookahead, t_end = t_begin + compensate_dt; the
working state is packed, loaded into the lag-compensation data, Q_dot is
computed, compensate(t_begin, t_end) runs, and the result is unloaded back to
the packing buffer.  The sub-operations pack, load, unload are modelled from
the spec (their sources are not in the repository slice): pack copies working
data to the packing buffer, load copies the packing buffer to the
lag-compensation data, unload copies the lag-compensation data back to the
packing buffer. -/
def RefFrameLagCompInteg.send_lag_compensation (comp : CompensateFn)
    (scenario_time lookahead : ℚ) (s : RefFrameLagCompState) :
    RefFrameLagCompState × List LagCompEvent :=
  let begin_t := scenario_time
  let s := { s with compensate_dt := lookahead }
  let end_t := begin_t + s.compensate_dt
  let s := { s with ref_frame := { s.ref_frame with packing_data := s.ref_frame.working_data } }
  let s := { s with lag_comp_data := s.ref_frame.packing_data }
  let s := { s with Q_dot := s.lag_comp_data.att.derivative_first s.lag_comp_data.ang_vel }
  let cq := comp begin_t end_t s.lag_comp_data s.Q_dot
  let s := { s with lag_comp_data := cq.1, Q_dot := cq.2 }
  let s := { s with ref_frame := { s.ref_frame with packing_data := s.lag_comp_data } }
  (s, [LagCompEvent.pack_from_working_data, LagCompEvent.load_lag_comp_data,
       LagCompEvent.compute_Q_dot, LagCompEvent.compensate begin_t end_t,
       LagCompEvent.unload_lag_comp_data])

/-- RefFrameLagCompInteg::receive_lag_compensation: end_t is the scenario
time, data_t is the time on the received record, compensate_dt is set to
end_t - data_t; only when the state attribute was received are the load,
Q_dot and compensate(data_t, end_t) steps run; the unload and unpack steps
always run.  Load, unload and unpack are modelled from the spec as in the
send flow; unpack copies the packing buffer into the working data. -/
def RefFrameLagCompInteg.receive_lag_compensation (comp : CompensateFn)
    (scenario_time : ℚ) (received : Bool) (s : RefFrameLagCompState) :
    RefFrameLagCompState × List LagCompEvent :=
  let end_t := scenario_time
  let data_t := s.ref_frame.get_time
  let s := { s with compensate_dt := end_t - data_t }
  let se :=
    if received then
      let s := { s with lag_comp_data := s.ref_frame.packing_data }
      let s := { s with Q_dot := s.lag_comp_data.att.derivative_first s.lag_comp_data.ang_vel }
      let cq := comp data_t end_t s.lag_comp_data s.Q_dot
      ({ s with lag_comp_data := cq.1, Q_dot := cq.2 },
       [LagCompEvent.load_lag_comp_data, LagCompEvent.compute_Q_dot,
        LagCompEvent.compensate data_t end_t])
    else
      (s, [])
  let s := se.1
  let s := { s with ref_frame := { s.ref_frame with packing_data := s.lag_comp_data } }
  let s := { s with ref_frame := { s.ref_frame with working_data := s.ref_frame.packing_data } }
  (s, se.2 ++ [LagCompEvent.unload_lag_comp_data, LagCompEvent.unpack_into_working_data])

/-- Configuration state of a PhysicalEntityLagCompInteg: current propagation
time, nominal integration step and termination tolerance. -/
structure PhysicalEntityLagCompInteg where
  integ_t : ℚ
  integ_dt : ℚ
  integ_tol : ℚ
deriving DecidableEq, Repr

/-- PhysicalEntityLagCompInteg::set_integ_dt: plain assignment of the step. -/
def PhysicalEntityLagCompInteg.set_integ_dt (s : PhysicalEntityLagCompInteg)
    (dt : ℚ) : PhysicalEntityLagCompInteg :=
  { s with integ_dt := dt }

/-- PhysicalEntityLagCompInteg::set_integ_tolerance: plain assignment of the
tolerance. -/
def PhysicalEntityLagCompInteg.set_integ_tolerance (s : PhysicalEntityLagCompInteg)
    (tol : ℚ) : PhysicalEntityLagCompInteg :=
  { s with integ_tol := tol }

end SpaceFOM

namespace TrickHLA

/-- Modelled from the spec: TrickThreadCoordinator.cpp is not in the sources;
a recorded child-thread association holds the thread id, the data cycle in
microseconds and the object instance names owned by the thread. -/
structure ThreadAssociation where
  thread_id : ℕ
  data_cycle_micros : ℤ
  obj_instance_names : List String
deriving DecidableEq, Repr

/-- Modelled from the spec: coordinator state — main-thread cycle in
microseconds, the recorded associations, the any-thread-associated flag and
the per-object-index data-cycle table. -/
structure TrickThreadCoordinator where
  main_thread_data_cycle_micros : ℤ
  associations : List ThreadAssociation
  any_thread_associated : Bool
  data_cycle_micros_per_obj : List (ℕ × ℤ)
deriving DecidableEq, Repr

/-- Whether cycle is a positive integer multiple of main, computed as the
coordinator checks it: positive and with zero remainder. -/
def TrickThreadCoordinator.is_pos_multiple (cycle main : ℤ) : Bool :=
  0 < cycle && cycle % main == 0

/-- All object instance names already associated to some thread. -/
def TrickThreadCoordinator.associated_names (s : TrickThreadCoordinator) : List String :=
  (s.associations.map (fun a => a.obj_instance_names)).flatten

/-- Modelled from the spec: TrickThreadCoordinator::associate_to_trick_child_thread
is fatal (none) when thread_id is 0, when the data cycle is not a positive
integer multiple of the main-thread cycle, or when an object name is already
associated to another thread; otherwise the association is appended and
any_thread_associated becomes true. -/
def TrickThreadCoordinator.associate_to_trick_child_thread (s : TrickThreadCoordinator)
    (thread_id : ℕ) (data_cycle_micros : ℤ) (obj_instance_names : List String) :
    Option TrickThreadCoordinator :=
  if thread_id = 0 then
    none
  else if TrickThreadCoordinator.is_pos_multiple data_cycle_micros
            s.main_thread_data_cycle_micros = false then
    none
  else if obj_instance_names.any (fun n => (s.associated_names).contains n) = true then
    none
  else
    some { s with
      associations := s.associations ++
        [{ thread_id := thread_id, data_cycle_micros := data_cycle_micros,
           obj_instance_names := obj_instance_names }],
      any_thread_associated := true }

/-- Data cycle recorded for a thread id, when the thread is associated. -/
def TrickThreadCoordinator.cycle_micros_for_thread (s : TrickThreadCoordinator)
    (thread_id : ℕ) : Option ℤ :=
  (s.associations.find? (fun a => a.thread_id == thread_id)).map
    (fun a => a.data_cycle_micros)

/-- Modelled from the spec: TrickThreadCoordinator::on_data_cycle_boundary_for_thread
is the pure predicate sim_time_micros mod cycle[thread_id] == 0; false when the
thread has no recorded cycle. -/
def TrickThreadCoordinator.on_data_cycle_boundary_for_thread (s : TrickThreadCoordinator)
    (thread_id : ℕ) (sim_time_micros : ℤ) : Bool :=
  match s.cycle_micros_for_thread thread_id with
  | some c => sim_time_micros % c == 0
  | none => false

/-- Whether object index i has an entry in the per-object cycle table. -/
def TrickThreadCoordinator.obj_associated (s : TrickThreadCoordinator)
    (obj_index : ℕ) : Bool :=
  (s.data_cycle_micros_per_obj.find? (fun p => p.1 == obj_index)).isSome

/-- Modelled from the spec: TrickThreadCoordinator::get_data_cycle_time_micros_for_obj
is a lookup with fallback — the recorded cycle for the object index when
present, the supplied default otherwise. -/
def TrickThreadCoordinator.get_data_cycle_time_micros_for_obj (s : TrickThreadCoordinator)
    (obj_index : ℕ) (default_data_cycle_micros : ℤ) : ℤ :=
  match s.data_cycle_micros_per_obj.find? (fun p => p.1 == obj_index) with
  | some p => p.2
  | none => default_data_cycle_micros

end TrickHLA

namespace TrickHLAModel

/-- Pull or push of attribute ownership. -/
inductive OwnershipAction where
  | pull
  | push
deriving DecidableEq, Repr

/-- Modelled from the spec: OwnershipHandler.cpp is not in the sources; a
queued ownership request names an attribute (none = all attributes), an
action, and a scenario time (none = as soon as possible). -/
structure OwnershipRequest where
  attribute_name : Option String
  action : OwnershipAction
  scenario_time : Option ℚ
deriving DecidableEq, Repr

/-- Modelled from the spec: push_ownership() — all attributes, as soon as
possible; appended to the insertion-ordered queue. -/
def OwnershipHandler.push_ownership (q : List OwnershipRequest) : List OwnershipRequest :=
  q ++ [{ attribute_name := none, action := OwnershipAction.push, scenario_time := none }]

/-- Modelled from the spec: push_ownership(time) — all attributes at the given
scenario time. -/
def OwnershipHandler.push_ownership_at (q : List OwnershipRequest) (t : ℚ) :
    List OwnershipRequest :=
  q ++ [{ attribute_name := none, action := OwnershipAction.push, scenario_time := some t }]

/-- Modelled from the spec: push_ownership(name, time) — one attribute at the
given scenario time. -/
def OwnershipHandler.push_ownership_named_at (q : List OwnershipRequest)
    (name : String) (t : ℚ) : List OwnershipRequest :=
  q ++ [{ attribute_name := some name, action := OwnershipAction.push, scenario_time := some t }]

/-- Modelled from the spec: pull_ownership(time) — all attributes at the given
scenario time. -/
def OwnershipHandler.pull_ownership_at (q : List OwnershipRequest) (t : ℚ) :
    List OwnershipRequest :=
  q ++ [{ attribute_name := none, action := OwnershipAction.pull, scenario_time := some t }]

/-- SineOwnershipHandler::initialize_callback, TEST_CASE 2: push all ASAP,
pull all at 3.0, push all at 5.0, pull all at 7.0, push Value at 9.0, each
appended to an initially empty queue in source order. -/
def SineOwnershipHandler.initialize_callback_case2 : List OwnershipRequest :=
  OwnershipHandler.push_ownership_named_at
    (OwnershipHandler.pull_ownership_at
      (OwnershipHandler.push_ownership_at
        (OwnershipHandler.pull_ownership_at
          (OwnershipHandler.push_ownership []) 3) 5) 7) "Value" 9

/-- Firing precedence between two queued requests: ASAP (no time) precedes
every timed request; two timed requests compare by scheduled time. -/
def OwnershipRequest.fires_no_later (r1 r2 : OwnershipRequest) : Bool :=
  match r1.scenario_time, r2.scenario_time with
  | none, _ => true
  | some _, none => false
  | some a, some b => a ≤ b

/-- Stable insertion of a later-queued request after every earlier request
that fires no later than it. -/
def insert_fire (r : OwnershipRequest) : List OwnershipRequest → List OwnershipRequest
  | [] => [r]
  | x :: xs =>
    if OwnershipRequest.fires_no_later x r then x :: insert_fire r xs
    else r :: x :: xs

/-- Modelled from the spec: the order in which queued requests fire — ASAP
requests before any timed request, equal scheduled times in insertion order. -/
def fire_order (q : List OwnershipRequest) : List OwnershipRequest :=
  q.foldl (fun acc r => insert_fire r acc) []

/-- Requests of the queue scheduled to fire at scenario time t. -/
def fires_at (q : List OwnershipRequest) (t : ℚ) : List OwnershipRequest :=
  q.filter (fun r => decide (r.scenario_time = some t))

end TrickHLAModel

open SpaceFOM TrickHLA TrickHLAModel

/-- A compensate strategy that returns its inputs unchanged, used to
instantiate the flows at concrete states. -/
def comp_id : CompensateFn :=
  fun _ _ lc qd => (lc, qd)

/-- A concrete space-time coordinate record. -/
def stcA : SpaceTimeCoordinateData :=
  { pos := { x := 0, y := 0, z := 0 },
    vel := { x := 0, y := 0, z := 0 },
    att := { scalar := 1, vector := { x := 0, y := 0, z := 0 } },
    ang_vel := { x := 0, y := 0, z := 0 },
    time := 0 }

/-- A second concrete record, distinct from stcA. -/
def stcB : SpaceTimeCoordinateData :=
  { pos := { x := 1, y := 0, z := 0 },
    vel := { x := 0, y := 0, z := 0 },
    att := { scalar := 1, vector := { x := 0, y := 0, z := 0 } },
    ang_vel := { x := 0, y := 0, z := 0 },
    time := 1 }

/-- A compensator state whose working data differs from its stored
lag-compensation data. -/
def lagStateAB : RefFrameLagCompState :=
  { ref_frame := { packing_data := stcA, working_data := stcA },
    compensate_dt := 0,
    lag_comp_data := stcB,
    Q_dot := { scalar := 0, vector := { x := 0, y := 0, z := 0 } } }

/-- A compensator state whose working data equals its stored lag-compensation
data. -/
def lagStateAA : RefFrameLagCompState :=
  { ref_frame := { packing_data := stcA, working_data := stcA },
    compensate_dt := 0,
    lag_comp_data := stcA,
    Q_dot := { scalar := 0, vector := { x := 0, y := 0, z := 0 } } }

/-- A freshly initialized coordinator with a 1000 microsecond main cycle. -/
def coord0 : TrickThreadCoordinator :=
  { main_thread_data_cycle_micros := 1000,
    associations := [],
    any_thread_associated := false,
    data_cycle_micros_per_obj := [] }

/-- The coordinator after associating thread 1 at 2000 microseconds. -/
def coordRes : TrickThreadCoordinator :=
  { main_thread_data_cycle_micros := 1000,
    associations := [{ thread_id := 1, data_cycle_micros := 2000,
                       obj_instance_names := ["frameA"] }],
    any_thread_associated := true,
    data_cycle_micros_per_obj := [] }

/-- A coordinator with one thread association and one object-cycle entry. -/
def coord1 : TrickThreadCoordinator :=
  { main_thread_data_cycle_micros := 1000,
    associations := [{ thread_id := 1, data_cycle_micros := 2000,
                       obj_instance_names := ["frameA"] }],
    any_thread_associated := true,
    data_cycle_micros_per_obj := [(0, 5)] }

/-- C1 counterexample: at integ_dt = integ_tol = 1 the invariant
integ_dt > integ_tol > 0 is violated (so the claim demands a fatal
initialize), but initialize does not terminate: the source only compares
integ_dt < integ_tol strictly. -/
theorem C1_counterexample :
    RefFrameLagCompInteg.initialize_is_fatal 1 1 = false ∧
    ¬ ((1 : ℚ) > 1 ∧ (1 : ℚ) > 0) := by
  exact ⟨by decide, by decide⟩

/-- C1 (amended): initialize is fatal exactly when integ_tol exceeds integ_dt
strictly; whenever it is fatal the invariant integ_dt > integ_tol > 0 is
indeed violated, but not every violation is fatal — equal step and tolerance,
and non-positive tolerances not exceeding the step, are accepted. -/
theorem C1_initialize_fatal_iff (integ_dt integ_tol : ℚ) :
    (RefFrameLagCompInteg.initialize_is_fatal integ_dt integ_tol = true ↔
      integ_dt < integ_tol) ∧
    (RefFrameLagCompInteg.initialize_is_fatal integ_dt integ_tol = true →
      ¬ (integ_dt > integ_tol ∧ integ_tol > 0)) := by
  constructor
  · simp [RefFrameLagCompInteg.initialize_is_fatal]
  · intro h hc
    have h1 : integ_dt < integ_tol := by
      simpa [RefFrameLagCompInteg.initialize_is_fatal] using h
    exact absurd hc.1 (not_lt.mpr (le_of_lt h1))

/-- C1 witness: at integ_dt = 1, integ_tol = 2 the fatal path is taken and
the invariant is indeed violated. -/
theorem C1_witness :
    RefFrameLagCompInteg.initialize_is_fatal 1 2 = true ∧
    ¬ ((1 : ℚ) > 2 ∧ (2 : ℚ) > 0) :=
  ⟨(C1_initialize_fatal_iff 1 2).1.mpr (by norm_num),
   (C1_initialize_fatal_iff 1 2).2 ((C1_initialize_fatal_iff 1 2).1.mpr (by norm_num))⟩

/-- C2: on every receive, compensate_dt is set to the scenario time minus the
data time on the received record; when the state attribute was received the
load, Q-dot and compensate(data time, scenario time) steps run, and the
unload and unpack steps always run, handing the lag-compensation data to the
frame working state. -/
theorem C2_receive_sequence (comp : CompensateFn) (scenario_time : ℚ)
    (received : Bool) (s : RefFrameLagCompState) :
    (RefFrameLagCompInteg.receive_lag_compensation comp scenario_time received s).2 =
      (if received then
        [LagCompEvent.load_lag_comp_data, LagCompEvent.compute_Q_dot,
         LagCompEvent.compensate s.ref_frame.get_time scenario_time]
       else []) ++
      [LagCompEvent.unload_lag_comp_data, LagCompEvent.unpack_into_working_data] ∧
    (RefFrameLagCompInteg.receive_lag_compensation comp scenario_time received s).1.compensate_dt =
      scenario_time - s.ref_frame.get_time ∧
    (RefFrameLagCompInteg.receive_lag_compensation comp scenario_time received s).1.lag_comp_data =
      (if received then
        (comp s.ref_frame.get_time scenario_time s.ref_frame.packing_data
          (s.ref_frame.packing_data.att.derivative_first s.ref_frame.packing_data.ang_vel)).1
       else s.lag_comp_data) ∧
    (RefFrameLagCompInteg.receive_lag_compensation comp scenario_time received s).1.ref_frame.packing_data =
      (RefFrameLagCompInteg.receive_lag_compensation comp scenario_time received s).1.lag_comp_data ∧
    (RefFrameLagCompInteg.receive_lag_compensation comp scenario_time received s).1.ref_frame.working_data =
      (RefFrameLagCompInteg.receive_lag_compensation comp scenario_time received s).1.ref_frame.packing_data := by
  cases received <;> exact ⟨rfl, rfl, rfl, rfl, rfl⟩

/-- C3: on every send, the flow is exactly pack the working state, load it,
compute Q-dot, compensate(scenario time, scenario time + lookahead), unload
to the publish buffer, in that order; compensate runs exactly once; the
compensated data written to the publish buffer is the strategy applied to the
snapshotted working state with the precomputed Q-dot. -/
theorem C3_send_sequence (comp : CompensateFn) (scenario_time lookahead : ℚ)
    (s : RefFrameLagCompState) :
    (RefFrameLagCompInteg.send_lag_compensation comp scenario_time lookahead s).2 =
      [LagCompEvent.pack_from_working_data, LagCompEvent.load_lag_comp_data,
       LagCompEvent.compute_Q_dot,
       LagCompEvent.compensate scenario_time (scenario_time + lookahead),
       LagCompEvent.unload_lag_comp_data] ∧
    (RefFrameLagCompInteg.send_lag_compensation comp scenario_time lookahead s).2.countP
      LagCompEvent.is_compensate = 1 ∧
    (RefFrameLagCompInteg.send_lag_compensation comp scenario_time lookahead s).1.compensate_dt =
      lookahead ∧
    (RefFrameLagCompInteg.send_lag_compensation comp scenario_time lookahead s).1.lag_comp_data =
      (comp scenario_time (scenario_time + lookahead) s.ref_frame.working_data
        (s.ref_frame.working_data.att.derivative_first s.ref_frame.working_data.ang_vel)).1 ∧
    (RefFrameLagCompInteg.send_lag_compensation comp scenario_time lookahead s).1.ref_frame.packing_data =
      (RefFrameLagCompInteg.send_lag_compensation comp scenario_time lookahead s).1.lag_comp_data :=
  ⟨rfl, rfl, rfl, rfl, rfl⟩

/-- C4 counterexample: a receive with the state attribute not received, on a
state whose stored lag-compensation data differs from the frame working
state, changes the working state — it becomes the carried-forward
lag-compensation data, not the prior working state. -/
theorem C4_counterexample :
    (RefFrameLagCompInteg.receive_lag_compensation comp_id 5 false lagStateAB).1.ref_frame.working_data ≠
      lagStateAB.ref_frame.working_data := by
  decide

/-- C4 (amended): on a receive with the state attribute not received, the
frame working state after the call equals the compensator's stored
lag-compensation data from before the call; in particular it equals the
working state before the call whenever that working state already matched the
stored lag-compensation data. -/
theorem C4_missing_receive (comp : CompensateFn) (scenario_time : ℚ)
    (s : RefFrameLagCompState) :
    (RefFrameLagCompInteg.receive_lag_compensation comp scenario_time false s).1.ref_frame.working_data =
      s.lag_comp_data ∧
    (s.ref_frame.working_data = s.lag_comp_data →
      (RefFrameLagCompInteg.receive_lag_compensation comp scenario_time false s).1.ref_frame.working_data =
        s.ref_frame.working_data) := by
  refine ⟨rfl, fun h => ?_⟩
  rw [h]
  exact rfl

/-- C4 witness: on a state whose working data equals the stored
lag-compensation data, a missing receive leaves the working data equal to its
prior value. -/
theorem C4_witness :
    lagStateAA.ref_frame.working_data = lagStateAA.lag_comp_data ∧
    (RefFrameLagCompInteg.receive_lag_compensation comp_id 5 false lagStateAA).1.ref_frame.working_data =
      lagStateAA.ref_frame.working_data :=
  ⟨rfl, (C4_missing_receive comp_id 5 lagStateAA).2 rfl⟩

/-- C9: every receive overwrites compensate_dt with scenario time minus the
data time, whether or not the attribute was received; on the missing-receive
path the stored lag-compensation data and Q-dot are unchanged. -/
theorem C9_receive_overwrites_dt (comp : CompensateFn) (scenario_time : ℚ)
    (s : RefFrameLagCompState) :
    (∀ received : Bool,
      (RefFrameLagCompInteg.receive_lag_compensation comp scenario_time received s).1.compensate_dt =
        scenario_time - s.ref_frame.get_time) ∧
    (RefFrameLagCompInteg.receive_lag_compensation comp scenario_time false s).1.lag_comp_data =
      s.lag_comp_data ∧
    (RefFrameLagCompInteg.receive_lag_compensation comp scenario_time false s).1.Q_dot =
      s.Q_dot := by
  refine ⟨fun received => ?_, rfl, rfl⟩
  cases received <;> rfl

/-- C5: association is rejected (none) exactly when the thread id is 0, the
data cycle is not a positive multiple of the main-thread cycle, or an object
name is already associated to another thread; on success the association is
recorded and any_thread_associated becomes true; and, for a positive main
cycle, the positive-multiple check holds exactly when the data cycle is k
times the main cycle for some integer k at least 1. -/
theorem C5_associate_characterization (s : TrickThreadCoordinator) (tid : ℕ)
    (cyc : ℤ) (names : List String) :
    (s.associate_to_trick_child_thread tid cyc names = none ↔
      (tid = 0 ∨
        TrickThreadCoordinator.is_pos_multiple cyc s.main_thread_data_cycle_micros = false ∨
        names.any (fun n => (s.associated_names).contains n) = true)) ∧
    (∀ s2, s.associate_to_trick_child_thread tid cyc names = some s2 →
      s2.any_thread_associated = true ∧
      s2.associations = s.associations ++
        [{ thread_id := tid, data_cycle_micros := cyc, obj_instance_names := names }]) ∧
    (0 < s.main_thread_data_cycle_micros →
      (TrickThreadCoordinator.is_pos_multiple cyc s.main_thread_data_cycle_micros = true ↔
        ∃ k : ℤ, 1 ≤ k ∧ cyc = k * s.main_thread_data_cycle_micros)) := by
  refine ⟨?_, ?_, ?_⟩
  · unfold TrickThreadCoordinator.associate_to_trick_child_thread
    split_ifs with h1 h2 h3 <;> simp_all
  · intro s2 hs2
    unfold TrickThreadCoordinator.associate_to_trick_child_thread at hs2
    split_ifs at hs2
    all_goals
      first
        | exact Option.noConfusion hs2
        | (cases Option.some.inj hs2; exact ⟨rfl, rfl⟩)
  · intro hm
    simp only [TrickThreadCoordinator.is_pos_multiple, Bool.and_eq_true,
      decide_eq_true_eq, beq_iff_eq]
    constructor
    · rintro ⟨hpos, hmod⟩
      obtain ⟨k, hk⟩ := Int.dvd_of_emod_eq_zero hmod
      refine ⟨k, ?_, by rw [hk, mul_comm]⟩
      by_contra hk1
      push_neg at hk1
      have hk0 : k ≤ 0 := by omega
      nlinarith
    · rintro ⟨k, hk1, rfl⟩
      constructor
      · have hk0 : (0 : ℤ) < k := by omega
        exact mul_pos hk0 hm
      · exact Int.mul_emod_left k s.main_thread_data_cycle_micros

/-- C5 witness: associating thread 1 at a 2000 microsecond cycle to a fresh
coordinator with a 1000 microsecond main cycle succeeds, records the
association and sets any_thread_associated; 2000 is a positive multiple of
1000. -/
theorem C5_witness :
    coord0.associate_to_trick_child_thread 1 2000 ["frameA"] = some coordRes ∧
    coordRes.any_thread_associated = true ∧
    TrickThreadCoordinator.is_pos_multiple 2000 coord0.main_thread_data_cycle_micros = true :=
  ⟨by decide,
   ((C5_associate_characterization coord0 1 2000 ["frameA"]).2.1 coordRes (by decide)).1,
   ((C5_associate_characterization coord0 1 2000 ["frameA"]).2.2 (by decide)).mpr
     ⟨2, by decide, by decide⟩⟩

/-- C6: the mixed ownership test case queues exactly the five requests, in
insertion order: push all ASAP, pull all at 3.0, push all at 5.0, pull all at
7.0, push Value at 9.0; the firing order puts the ASAP push first and then
one request at each of the scenario times 3, 5, 7, 9, in that order; and
exactly one queued request is scheduled at each of those times. -/
theorem C6_ownership_case2 :
    SineOwnershipHandler.initialize_callback_case2 =
      [{ attribute_name := none, action := OwnershipAction.push, scenario_time := none },
       { attribute_name := none, action := OwnershipAction.pull, scenario_time := some 3 },
       { attribute_name := none, action := OwnershipAction.push, scenario_time := some 5 },
       { attribute_name := none, action := OwnershipAction.pull, scenario_time := some 7 },
       { attribute_name := some "Value", action := OwnershipAction.push, scenario_time := some 9 }] ∧
    fire_order SineOwnershipHandler.initialize_callback_case2 =
      [{ attribute_name := none, action := OwnershipAction.push, scenario_time := none },
       { attribute_name := none, action := OwnershipAction.pull, scenario_time := some 3 },
       { attribute_name := none, action := OwnershipAction.push, scenario_time := some 5 },
       { attribute_name := none, action := OwnershipAction.pull, scenario_time := some 7 },
       { attribute_name := some "Value", action := OwnershipAction.push, scenario_time := some 9 }] ∧
    fires_at SineOwnershipHandler.initialize_callback_case2 3 =
      [{ attribute_name := none, action := OwnershipAction.pull, scenario_time := some 3 }] ∧
    fires_at SineOwnershipHandler.initialize_callback_case2 5 =
      [{ attribute_name := none, action := OwnershipAction.push, scenario_time := some 5 }] ∧
    fires_at SineOwnershipHandler.initialize_callback_case2 7 =
      [{ attribute_name := none, action := OwnershipAction.pull, scenario_time := some 7 }] ∧
    fires_at SineOwnershipHandler.initialize_callback_case2 9 =
      [{ attribute_name := some "Value", action := OwnershipAction.push, scenario_time := some 9 }] := by
  refine ⟨by decide, by decide, by decide, by decide, by decide, by decide⟩

/-- C7: for an associated thread, the cycle-boundary predicate for a thread
holds exactly when the simulation time is a multiple of the thread's recorded
data cycle. -/
theorem C7_on_boundary_thread (s : TrickThreadCoordinator) (thread_id : ℕ)
    (c : ℤ) (sim_time_micros : ℤ)
    (h : s.cycle_micros_for_thread thread_id = some c) :
    s.on_data_cycle_boundary_for_thread thread_id sim_time_micros = true ↔
      sim_time_micros % c = 0 := by
  unfold TrickThreadCoordinator.on_data_cycle_boundary_for_thread
  rw [h]
  simp

/-- C7 witness: thread 1 of the concrete coordinator has a 2000 microsecond
cycle and is on a boundary at 6000 microseconds. -/
theorem C7_witness :
    coord1.cycle_micros_for_thread 1 = some 2000 ∧
    (coord1.on_data_cycle_boundary_for_thread 1 6000 = true ↔ (6000 : ℤ) % 2000 = 0) ∧
    coord1.on_data_cycle_boundary_for_thread 1 6000 = true :=
  ⟨by decide, C7_on_boundary_thread coord1 1 2000 6000 (by decide), by decide⟩

/-- C8 counterexample: object 0 of the concrete coordinator is associated
with a recorded cycle of 5, yet the lookup with default 5 returns the
default value 5 — so returning the default does not imply the object is
unassociated. -/
theorem C8_counterexample :
    coord1.get_data_cycle_time_micros_for_obj 0 5 = 5 ∧
    coord1.obj_associated 0 = true := by
  exact ⟨rfl, rfl⟩

/-- C8 (amended): the lookup returns the default when the object is not
associated, and the recorded cycle when it is; hence the claimed equivalence
(result equals the default exactly when the object is unassociated) holds
exactly for defaults that differ from the object's recorded cycle. -/
theorem C8_get_cycle_characterization (s : TrickThreadCoordinator) (i : ℕ) (d : ℤ) :
    (s.obj_associated i = false → s.get_data_cycle_time_micros_for_obj i d = d) ∧
    (∀ p, s.data_cycle_micros_per_obj.find? (fun q => q.1 == i) = some p →
      s.get_data_cycle_time_micros_for_obj i d = p.2) ∧
    ((∀ p, s.data_cycle_micros_per_obj.find? (fun q => q.1 == i) = some p → p.2 ≠ d) →
      (s.get_data_cycle_time_micros_for_obj i d = d ↔ s.obj_associated i = false)) := by
  unfold TrickThreadCoordinator.get_data_cycle_time_micros_for_obj
    TrickThreadCoordinator.obj_associated
  cases hf : s.data_cycle_micros_per_obj.find? (fun q => q.1 == i) with
  | none => simp
  | some p =>
    refine ⟨by simp, ?_, ?_⟩
    · intro q hq
      cases Option.some.inj hq
      rfl
    · intro hne
      simp only [Option.isSome_some]
      constructor
      · intro hpd
        exact absurd hpd (hne p rfl)
      · intro hts
        exact absurd hts (by simp)

/-- C8 witness: on the concrete coordinator, looking up the unassociated
object 3 returns the default 7, and for the associated object 0 with a
default 9 different from its recorded cycle 5 the claimed equivalence does
hold. -/
theorem C8_witness :
    coord1.get_data_cycle_time_micros_for_obj 3 7 = 7 ∧
    (coord1.get_data_cycle_time_micros_for_obj 0 9 = 9 ↔ coord1.obj_associated 0 = false) :=
  ⟨(C8_get_cycle_characterization coord1 3 7).1 (by decide),
   (C8_get_cycle_characterization coord1 0 9).2.2
     (fun p hp => by cases Option.some.inj hp; decide)⟩

/-- C10: the integration-step and tolerance setters store exactly the
supplied value, change nothing else, and perform no validation — any pair of
values, including pairs violating the initialize-time relation
integ_dt > integ_tol > 0, can be installed. -/
theorem C10_setters_store_unvalidated (s : PhysicalEntityLagCompInteg) (dt tol : ℚ) :
    (s.set_integ_dt dt).integ_dt = dt ∧
    (s.set_integ_dt dt).integ_tol = s.integ_tol ∧
    (s.set_integ_dt dt).integ_t = s.integ_t ∧
    (s.set_integ_tolerance tol).integ_tol = tol ∧
    (s.set_integ_tolerance tol).integ_dt = s.integ_dt ∧
    (s.set_integ_tolerance tol).integ_t = s.integ_t ∧
    ((s.set_integ_dt dt).set_integ_tolerance tol).integ_dt = dt ∧
    ((s.set_integ_dt dt).set_integ_tolerance tol).integ_tol = tol :=
  ⟨rfl, rfl, rfl, rfl, rfl, rfl, rfl, rfl⟩
